import Mathlib

/-!
Verification of the diagnosticsd extension-to-daemon message relay
(chrome/browser/chromeos/diagnosticsd/diagnosticsd_messaging).

The repository snapshot contains only the relay's unit tests
(diagnosticsd_messaging_unittest.cc); the implementation file itself is
absent, so the relay state machine below is modelled from the
specification (sections 4.2-4.5 and 7), with one timing fact taken from
the tests where they decide it: the NoMojoConnection test attaches a
strict mock client in Start() and only afterwards sets the expectation
for CloseChannel(kNotFoundError), satisfied during OnMessage(); hence
Start() itself performs no client-visible call and the "not found" close
happens while handling the first message, not at construction.

The model is a small state machine driven by three events (a client
message, a backend reply delivered through the bound ResponseDelivery,
and destruction of the host), producing for each event the list of
observable calls: backend sends, postMessage deliveries to the client,
and channel closes with an error string.
-/

/-- Modelled from the spec: the relay session's control states
(section 4.4).  `noBackend` is the state of a session whose BackendLink
acquisition failed: it never enters `idle`, and (per the
NoMojoConnection test) it closes with the "not found" error only when
the first message is handled.  `closed` is terminal. -/
inductive SessionState
  | noBackend
  | idle
  | awaitingReply
  | closed
deriving DecidableEq, Repr

/-- Modelled from the spec: a RelaySession's mutable attributes (section
3).  `state` is the control state; `alive` is the liveness flag consumed
by ResponseDelivery's weak back-reference check (section 4.5, design
note in section 9): destruction clears it, and a reply arriving
afterwards must be a no-op. -/
structure RelaySession where
  state : SessionState
  alive : Bool
deriving DecidableEq, Repr

/-- Modelled from the spec: the observable calls the relay makes —
`send` to the BackendLink (section 4.3), `postMessage` and `close` on
the ChannelEndpoint (section 4.2). -/
inductive Call
  | send (payload : String)
  | postMessage (payload : String)
  | close (error : String)
deriving DecidableEq, Repr

/-- Whether a call is a channel close. -/
def Call.isClose : Call → Bool
  | Call.close _ => true
  | _ => false

/-- Whether a call is a backend send. -/
def Call.isSend : Call → Bool
  | Call.send _ => true
  | _ => false

/-- Modelled from the spec: the fixed "not found" error string
(`extensions::NativeMessageHost::kNotFoundError`); only its identity
matters to the relay. -/
def kNotFoundError : String := "Specified native messaging host not found."

/-- Modelled from the spec: the fixed "too big" error string
(`kDiagnosticsdUiMessageTooBigExtensionsError`, declared in the absent
diagnosticsd_messaging.cc); only its identity matters. -/
def kDiagnosticsdUiMessageTooBigExtensionsError : String :=
  "Message is too big"

/-- Modelled from the spec: the fixed "extra messages" error string
(`kDiagnosticsdUiExtraMessagesExtensionsError`, declared in the absent
diagnosticsd_messaging.cc); only its identity matters. -/
def kDiagnosticsdUiExtraMessagesExtensionsError : String :=
  "At most one message may be sent through the channel"

/-- Modelled from the spec: closing the channel (section 4.2): the
session becomes `closed` and exactly one `close(error)` call is made. -/
def RelaySession.closeChannel (s : RelaySession) (error : String) :
    RelaySession × List Call :=
  ({ s with state := SessionState.closed }, [Call.close error])

/-- Modelled from the spec: the OnMessage handler (section 4.4,
transitions 2, 3 and 5, plus the deferred not-found close of transition
1 at the timing the NoMojoConnection test fixes).  `maxSize` is the
MAX_MESSAGE_SIZE ceiling (`kDiagnosticsdUiMessageMaxSize`), whose
numeric value is not in the sources, so it is a parameter.  Closed
sessions ignore input; a session without a backend link closes with the
not-found error; an extra message while a request is outstanding closes
with the extra-messages error regardless of its size; an oversize
request closes with the too-big error; otherwise the payload is
forwarded unchanged and the session awaits the reply. -/
def RelaySession.onMessage (s : RelaySession) (maxSize : Nat)
    (payload : String) : RelaySession × List Call :=
  if s.state = SessionState.closed then (s, [])
  else if s.state = SessionState.noBackend then
    s.closeChannel kNotFoundError
  else if s.state = SessionState.awaitingReply then
    s.closeChannel kDiagnosticsdUiExtraMessagesExtensionsError
  else if maxSize < payload.length then
    s.closeChannel kDiagnosticsdUiMessageTooBigExtensionsError
  else ({ s with state := SessionState.awaitingReply }, [Call.send payload])

/-- Modelled from the spec: ResponseDelivery forwarding a backend reply
(sections 4.4 transition 4 and 4.5).  It first checks the liveness flag
(destroyed session: no-op), then that the session is still awaiting this
reply (stale reply after a close: no-op); an empty reply closes cleanly
with the empty error string, an oversize reply closes with the too-big
error without forwarding, and otherwise the payload is posted to the
client followed immediately by a clean close. -/
def RelaySession.backendReply (s : RelaySession) (maxSize : Nat)
    (payload : String) : RelaySession × List Call :=
  if s.alive then
    if s.state = SessionState.awaitingReply then
      if payload.length = 0 then s.closeChannel ""
      else if maxSize < payload.length then
        s.closeChannel kDiagnosticsdUiMessageTooBigExtensionsError
      else ({ s with state := SessionState.closed },
            [Call.postMessage payload, Call.close ""])
    else (s, [])
  else (s, [])

/-- Modelled from the spec and the NoMojoConnection test: starting a
session records whether a BackendLink was acquired (decided once, at
construction) and attaches the client, performing no client-visible
call; the test sets its CloseChannel expectation only after Start(), so
Start() itself must not close. -/
def RelaySession.start (backendAvailable : Bool) :
    RelaySession × List Call :=
  (⟨if backendAvailable then SessionState.idle else SessionState.noBackend,
    true⟩, [])

/-- Modelled from the spec: the three events that drive a session.
`message` is a client frame arriving through the channel, `reply` the
asynchronous backend reply delivered via ResponseDelivery, `destroy` the
owner tearing the host down (section 4.4 transition 6: destruction
issues no implicit close). -/
inductive Event
  | message (payload : String)
  | reply (payload : String)
  | destroy
deriving DecidableEq, Repr

/-- One event step of a session.  A destroyed host receives no method
calls, so a `message` on a dead session is a no-op; `reply` performs its
own liveness check (ResponseDelivery); `destroy` clears the liveness
flag and makes no call. -/
def step (maxSize : Nat) (s : RelaySession) : Event → RelaySession × List Call
  | Event.message p => if s.alive then s.onMessage maxSize p else (s, [])
  | Event.reply p => s.backendReply maxSize p
  | Event.destroy => ({ s with alive := false }, [])

/-- Run a list of events from a session, concatenating the observable
calls in order. -/
def runEvents (maxSize : Nat) : RelaySession → List Event → RelaySession × List Call
  | s, [] => (s, [])
  | s, e :: es =>
    ((runEvents maxSize (step maxSize s e).1 es).1,
     (step maxSize s e).2 ++ (runEvents maxSize (step maxSize s e).1 es).2)

/-- The number of `close` calls in a call trace. -/
def closeCount (cs : List Call) : Nat := (cs.filter Call.isClose).length

/-- The number of backend `send` calls in a call trace. -/
def sendCount (cs : List Call) : Nat := (cs.filter Call.isSend).length

theorem closeCount_append (a b : List Call) :
    closeCount (a ++ b) = closeCount a + closeCount b := by
  simp [closeCount, List.filter_append]

theorem sendCount_append (a b : List Call) :
    sendCount (a ++ b) = sendCount a + sendCount b := by
  simp [sendCount, List.filter_append]

theorem runEvents_cons (maxSize : Nat) (s : RelaySession) (e : Event)
    (es : List Event) :
    runEvents maxSize s (e :: es) =
      ((runEvents maxSize (step maxSize s e).1 es).1,
       (step maxSize s e).2 ++ (runEvents maxSize (step maxSize s e).1 es).2) :=
  rfl

/-- A message handled by an already-closed session is a no-op. -/
theorem onMessage_closed (maxSize : Nat) (s : RelaySession) (p : String)
    (h : s.state = SessionState.closed) :
    s.onMessage maxSize p = (s, []) := by
  simp [RelaySession.onMessage, h]

/-- A closed session stays closed and makes no call, whatever the event. -/
theorem step_closed (maxSize : Nat) (s : RelaySession) (e : Event)
    (h : s.state = SessionState.closed) :
    (step maxSize s e).1.state = SessionState.closed ∧
    (step maxSize s e).2 = [] := by
  cases e with
  | message p =>
    cases ha : s.alive with
    | true => simp [step, ha, RelaySession.onMessage, h]
    | false => simp [step, ha, h]
  | reply p =>
    cases ha : s.alive with
    | true => simp [step, ha, RelaySession.backendReply, h]
    | false => simp [step, ha, RelaySession.backendReply, h]
  | destroy => simp [step, h]

/-- Each single step makes at most one close call, and a step that ends
in a non-closed state makes none. -/
theorem step_close_bound (maxSize : Nat) (s : RelaySession) (e : Event) :
    closeCount (step maxSize s e).2 ≤ 1 ∧
    ((step maxSize s e).1.state = SessionState.closed ∨
      closeCount (step maxSize s e).2 = 0) := by
  cases e with
  | message p =>
    cases ha : s.alive with
    | false => simp [step, ha, closeCount]
    | true =>
      cases hs : s.state <;>
        simp only [step, ha, RelaySession.onMessage, RelaySession.closeChannel,
          hs, if_true, reduceCtorEq, if_false, ite_true, ite_false,
          reduceIte] <;>
      first
      | (simp [closeCount, Call.isClose]; done)
      | (split_ifs <;> simp [closeCount, Call.isClose])
  | reply p =>
    cases ha : s.alive with
    | false => simp [step, ha, RelaySession.backendReply, closeCount]
    | true =>
      cases hs : s.state <;>
        simp only [step, ha, RelaySession.backendReply,
          RelaySession.closeChannel, hs, if_true, reduceCtorEq, if_false,
          ite_true, ite_false, reduceIte] <;>
      first
      | (simp [closeCount, Call.isClose]; done)
      | (split_ifs <;> simp [closeCount, Call.isClose])
  | destroy => simp [step, closeCount]

/-- From a closed session, any event sequence keeps it closed and
produces no calls at all. -/
theorem runEvents_closed (maxSize : Nat) (es : List Event) :
    ∀ s : RelaySession, s.state = SessionState.closed →
      (runEvents maxSize s es).1.state = SessionState.closed ∧
      (runEvents maxSize s es).2 = [] := by
  induction es with
  | nil => intro s h; exact ⟨h, rfl⟩
  | cons e es ih =>
    intro s h
    obtain ⟨h1, h2⟩ := step_closed maxSize s e h
    obtain ⟨h3, h4⟩ := ih (step maxSize s e).1 h1
    rw [runEvents_cons]
    exact ⟨h3, by rw [h2, h4]; rfl⟩

/-- Over any event sequence from any session, at most one close call is
ever made: the first close moves the session to the terminal `closed`
state, from which no further call is made. -/
theorem runEvents_close_le_one (maxSize : Nat) (es : List Event) :
    ∀ s : RelaySession, closeCount (runEvents maxSize s es).2 ≤ 1 := by
  induction es with
  | nil => intro s; simp [runEvents, closeCount]
  | cons e es ih =>
    intro s
    rw [runEvents_cons]
    simp only [closeCount_append]
    obtain ⟨hle, hcase⟩ := step_close_bound maxSize s e
    cases hcase with
    | inl hclosed =>
      have h0 := (runEvents_closed maxSize es _ hclosed).2
      rw [h0]
      simpa [closeCount] using hle
    | inr hzero =>
      have := ih (step maxSize s e).1
      omega

/-- A session without a backend link never sends to the backend and
never enters a sending state: each step from `noBackend` or `closed`
stays in one of those states and emits no `send`. -/
theorem step_noBackend_no_send (maxSize : Nat) (s : RelaySession) (e : Event)
    (h : s.state = SessionState.noBackend ∨ s.state = SessionState.closed) :
    ((step maxSize s e).1.state = SessionState.noBackend ∨
      (step maxSize s e).1.state = SessionState.closed) ∧
    sendCount (step maxSize s e).2 = 0 := by
  cases e with
  | message p =>
    cases ha : s.alive with
    | false => simp [step, ha, sendCount, h]
    | true =>
      cases h with
      | inl h =>
        simp [step, ha, RelaySession.onMessage, RelaySession.closeChannel, h,
          sendCount, Call.isSend]
      | inr h =>
        simp [step, ha, RelaySession.onMessage, h, sendCount]
  | reply p =>
    cases ha : s.alive with
    | false => simp [step, ha, RelaySession.backendReply, sendCount, h]
    | true =>
      cases h with
      | inl h => simp [step, ha, RelaySession.backendReply, h, sendCount]
      | inr h => simp [step, ha, RelaySession.backendReply, h, sendCount]
  | destroy => simp [step, sendCount, h]

/-- Over any event sequence, a session in `noBackend` (or already
closed) never makes a backend send. -/
theorem runEvents_noBackend_no_send (maxSize : Nat) (es : List Event) :
    ∀ s : RelaySession,
      s.state = SessionState.noBackend ∨ s.state = SessionState.closed →
      sendCount (runEvents maxSize s es).2 = 0 := by
  induction es with
  | nil => intro s _; simp [runEvents, sendCount]
  | cons e es ih =>
    intro s h
    obtain ⟨h1, h2⟩ := step_noBackend_no_send maxSize s e h
    rw [runEvents_cons]
    simp only [sendCount_append]
    rw [h2, ih (step maxSize s e).1 h1]

/-- C1: for a backend reply payload p with 0 < len(p) <= MAX_MESSAGE_SIZE
delivered while the session is awaiting the reply, the session performs
exactly one postMessage(p) followed by exactly one clean close, in that
order, and no other client-visible call, ending closed. -/
theorem backendReply_inBounds_posts_then_closes (maxSize : Nat)
    (s : RelaySession) (p : String) (halive : s.alive = true)
    (hstate : s.state = SessionState.awaitingReply) (hpos : 0 < p.length)
    (hmax : p.length ≤ maxSize) :
    (s.backendReply maxSize p).2 = [Call.postMessage p, Call.close ""] ∧
    (s.backendReply maxSize p).1.state = SessionState.closed := by
  have hne : ¬ p.length = 0 := Nat.pos_iff_ne_zero.mp hpos
  simp [RelaySession.backendReply, halive, hstate, hne, Nat.not_lt.mpr hmax]

/-- C1 witness: a session awaiting a reply receives the two-byte reply
"ab" under the size ceiling 5 and emits exactly postMessage then a
clean close. -/
theorem backendReply_inBounds_posts_then_closes_witness :
    (RelaySession.backendReply ⟨SessionState.awaitingReply, true⟩ 5 "ab").2
      = [Call.postMessage "ab", Call.close ""] ∧
    (RelaySession.backendReply ⟨SessionState.awaitingReply, true⟩ 5 "ab").1.state
      = SessionState.closed :=
  backendReply_inBounds_posts_then_closes 5 ⟨SessionState.awaitingReply, true⟩
    "ab" rfl rfl (by decide) (by decide)

/-- C2: for a payload p with len(p) <= MAX_MESSAGE_SIZE received via
onMessage while the session is idle, exactly one backend send occurs
carrying p unchanged, and the session moves to awaiting the reply
without closing the channel. -/
theorem onMessage_idle_forwards (maxSize : Nat) (s : RelaySession)
    (p : String) (hstate : s.state = SessionState.idle)
    (hmax : p.length ≤ maxSize) :
    (s.onMessage maxSize p).2 = [Call.send p] ∧
    (s.onMessage maxSize p).1.state = SessionState.awaitingReply := by
  simp [RelaySession.onMessage, hstate, Nat.not_lt.mpr hmax]

/-- C2 witness: an idle session forwards the payload "ab" whose length
equals the size ceiling 2 exactly, and awaits the reply. -/
theorem onMessage_idle_forwards_witness :
    (RelaySession.onMessage ⟨SessionState.idle, true⟩ 2 "ab").2
      = [Call.send "ab"] ∧
    (RelaySession.onMessage ⟨SessionState.idle, true⟩ 2 "ab").1.state
      = SessionState.awaitingReply :=
  onMessage_idle_forwards 2 ⟨SessionState.idle, true⟩ "ab" rfl (by decide)

/-- C3: for a payload p with len(p) > MAX_MESSAGE_SIZE received via
onMessage while the session is idle, no backend send occurs and the
session closes the channel with the too-big error. -/
theorem onMessage_idle_tooBig (maxSize : Nat) (s : RelaySession)
    (p : String) (hstate : s.state = SessionState.idle)
    (hbig : maxSize < p.length) :
    (s.onMessage maxSize p).2 =
      [Call.close kDiagnosticsdUiMessageTooBigExtensionsError] ∧
    (s.onMessage maxSize p).1.state = SessionState.closed := by
  simp [RelaySession.onMessage, RelaySession.closeChannel, hstate, hbig]

/-- C3 witness: an idle session with size ceiling 2 receives the
three-byte payload "abc" and closes with the too-big error, sending
nothing. -/
theorem onMessage_idle_tooBig_witness :
    (RelaySession.onMessage ⟨SessionState.idle, true⟩ 2 "abc").2
      = [Call.close kDiagnosticsdUiMessageTooBigExtensionsError] ∧
    (RelaySession.onMessage ⟨SessionState.idle, true⟩ 2 "abc").1.state
      = SessionState.closed :=
  onMessage_idle_tooBig 2 ⟨SessionState.idle, true⟩ "abc" rfl (by decide)

/-- C4: a second onMessage while the session awaits a reply closes the
channel with the extra-messages error regardless of the second
payload's size and forwards nothing to the backend; the first request's
eventual backend reply then produces no client-visible effect. -/
theorem onMessage_awaitingReply_extra (maxSize : Nat) (s : RelaySession)
    (p q : String) (hstate : s.state = SessionState.awaitingReply) :
    (s.onMessage maxSize p).2 =
      [Call.close kDiagnosticsdUiExtraMessagesExtensionsError] ∧
    (s.onMessage maxSize p).1.state = SessionState.closed ∧
    ((s.onMessage maxSize p).1.backendReply maxSize q).2 = [] := by
  refine ⟨?_, ?_, ?_⟩
  · simp [RelaySession.onMessage, RelaySession.closeChannel, hstate]
  · simp [RelaySession.onMessage, RelaySession.closeChannel, hstate]
  · have h1 : (s.onMessage maxSize p).1.state = SessionState.closed := by
      simp [RelaySession.onMessage, RelaySession.closeChannel, hstate]
    cases ha : (s.onMessage maxSize p).1.alive with
    | true => simp [RelaySession.backendReply, ha, h1]
    | false => simp [RelaySession.backendReply, ha]

/-- C4 witness: a session awaiting a reply receives the extra message
"x" (well within the ceiling 9), closes with the extra-messages error,
and the stale backend reply "yy" afterwards emits nothing. -/
theorem onMessage_awaitingReply_extra_witness :
    (RelaySession.onMessage ⟨SessionState.awaitingReply, true⟩ 9 "x").2
      = [Call.close kDiagnosticsdUiExtraMessagesExtensionsError] ∧
    (RelaySession.onMessage ⟨SessionState.awaitingReply, true⟩ 9 "x").1.state
      = SessionState.closed ∧
    ((RelaySession.onMessage ⟨SessionState.awaitingReply, true⟩ 9
        "x").1.backendReply 9 "yy").2 = [] :=
  onMessage_awaitingReply_extra 9 ⟨SessionState.awaitingReply, true⟩ "x" "yy"
    rfl

/-- C5: a backend reply with a zero-length payload delivered while the
session awaits it closes the channel with the empty error string and
never calls postMessage. -/
theorem backendReply_empty_closes_clean (maxSize : Nat) (s : RelaySession)
    (p : String) (halive : s.alive = true)
    (hstate : s.state = SessionState.awaitingReply)
    (hempty : p.length = 0) :
    (s.backendReply maxSize p).2 = [Call.close ""] ∧
    (s.backendReply maxSize p).1.state = SessionState.closed := by
  simp [RelaySession.backendReply, RelaySession.closeChannel, halive, hstate,
    hempty]

/-- C5 witness: a session awaiting a reply receives the empty reply and
closes cleanly with the empty error string, posting nothing. -/
theorem backendReply_empty_closes_clean_witness :
    (RelaySession.backendReply ⟨SessionState.awaitingReply, true⟩ 4 "").2
      = [Call.close ""] ∧
    (RelaySession.backendReply ⟨SessionState.awaitingReply, true⟩ 4 "").1.state
      = SessionState.closed :=
  backendReply_empty_closes_clean 4 ⟨SessionState.awaitingReply, true⟩ ""
    rfl rfl rfl

/-- C6: a backend reply payload with len(p) > MAX_MESSAGE_SIZE delivered
while the session awaits it closes the channel with the too-big error
and never calls postMessage: the oversize reply is not forwarded. -/
theorem backendReply_tooBig_closes (maxSize : Nat) (s : RelaySession)
    (p : String) (halive : s.alive = true)
    (hstate : s.state = SessionState.awaitingReply)
    (hbig : maxSize < p.length) :
    (s.backendReply maxSize p).2 =
      [Call.close kDiagnosticsdUiMessageTooBigExtensionsError] ∧
    (s.backendReply maxSize p).1.state = SessionState.closed := by
  have hne : ¬ p.length = 0 := by omega
  simp [RelaySession.backendReply, RelaySession.closeChannel, halive, hstate,
    hne, hbig]

/-- C6 witness: a session awaiting a reply under size ceiling 2 receives
the three-byte reply "abc" and closes with the too-big error, posting
nothing. -/
theorem backendReply_tooBig_closes_witness :
    (RelaySession.backendReply ⟨SessionState.awaitingReply, true⟩ 2 "abc").2
      = [Call.close kDiagnosticsdUiMessageTooBigExtensionsError] ∧
    (RelaySession.backendReply ⟨SessionState.awaitingReply, true⟩ 2 "abc").1.state
      = SessionState.closed :=
  backendReply_tooBig_closes 2 ⟨SessionState.awaitingReply, true⟩ "abc"
    rfl rfl (by decide)

/-- C7: if the session is destroyed after a request was forwarded (it is
awaiting the reply) but before the backend reply arrives, the
later-arriving reply produces zero calls, and the session's stored state
is untouched apart from the cleared liveness flag. -/
theorem reply_after_destroy_is_noop (maxSize : Nat) (s : RelaySession)
    (q : String) (hstate : s.state = SessionState.awaitingReply) :
    (runEvents maxSize s [Event.destroy, Event.reply q]).2 = [] ∧
    (runEvents maxSize s [Event.destroy, Event.reply q]).1 =
      { s with alive := false } := by
  simp [runEvents, step, RelaySession.backendReply, hstate]

/-- C7 witness: a session awaiting a reply is destroyed and the reply
"zz" then arrives: no call at all is made. -/
theorem reply_after_destroy_is_noop_witness :
    (runEvents 9 ⟨SessionState.awaitingReply, true⟩
        [Event.destroy, Event.reply "zz"]).2 = [] ∧
    (runEvents 9 ⟨SessionState.awaitingReply, true⟩
        [Event.destroy, Event.reply "zz"]).1 =
      ⟨SessionState.awaitingReply, false⟩ :=
  reply_after_destroy_is_noop 9 ⟨SessionState.awaitingReply, true⟩ "zz" rfl

/-- C8 counterexample: a session started without a backend link has made
no call at all (in particular no close(kNotFoundError)) and is not in the
closed state before the first onMessage, contradicting the claim that
the close happens immediately at construction: the NoMojoConnection test
sets its CloseChannel expectation only after Start(), so the close is
deferred to the first onMessage. -/
theorem start_noBackend_no_close_at_construction :
    (RelaySession.start false).2 = [] ∧
    ¬ (RelaySession.start false).1.state = SessionState.closed :=
  ⟨rfl, by decide⟩

/-- C8 (amended): if no backend link can be acquired at session start,
the session never enters the idle state, the first onMessage (of a
payload within the size ceiling) closes the channel with
kNotFoundError and is the only observable effect, later onMessage calls
are accepted but are no-ops, and no request is ever sent to the backend
over any sequence of events. -/
theorem noBackend_closes_on_first_onMessage (maxSize : Nat) :
    (RelaySession.start false).2 = [] ∧
    (RelaySession.start false).1.state = SessionState.noBackend ∧
    (∀ p : String, p.length ≤ maxSize →
      ((RelaySession.start false).1.onMessage maxSize p).2 =
        [Call.close kNotFoundError] ∧
      ((RelaySession.start false).1.onMessage maxSize p).1.state =
        SessionState.closed) ∧
    (∀ p q : String,
      (((RelaySession.start false).1.onMessage maxSize p).1.onMessage
          maxSize q) =
        (((RelaySession.start false).1.onMessage maxSize p).1, [])) ∧
    (∀ es : List Event,
      sendCount (runEvents maxSize (RelaySession.start false).1 es).2 = 0) := by
  refine ⟨rfl, rfl, ?_, ?_, ?_⟩
  · intro p _
    simp [RelaySession.start, RelaySession.onMessage, RelaySession.closeChannel]
  · intro p q
    have h1 : ((RelaySession.start false).1.onMessage maxSize p).1.state =
        SessionState.closed := by
      simp [RelaySession.start, RelaySession.onMessage,
        RelaySession.closeChannel]
    exact onMessage_closed maxSize _ q h1
  · intro es
    exact runEvents_noBackend_no_send maxSize es _ (Or.inl rfl)

/-- C8 witness: starting without a backend link makes no call; the first
onMessage of "a" under ceiling 3 closes with kNotFoundError; a further
onMessage of "b" is a no-op; the event trace message-reply-message sends
nothing to the backend. -/
theorem noBackend_closes_on_first_onMessage_witness :
    ((RelaySession.start false).1.onMessage 3 "a").2 =
      [Call.close kNotFoundError] ∧
    (((RelaySession.start false).1.onMessage 3 "a").1.onMessage 3 "b") =
      ((((RelaySession.start false).1.onMessage 3 "a").1), []) ∧
    sendCount (runEvents 3 (RelaySession.start false).1
      [Event.message "a", Event.reply "r", Event.message "b"]).2 = 0 :=
  ⟨((noBackend_closes_on_first_onMessage 3).2.2.1 "a" (by decide)).1,
   (noBackend_closes_on_first_onMessage 3).2.2.2.1 "a" "b",
   (noBackend_closes_on_first_onMessage 3).2.2.2.2 _⟩

/-- C9: the closed state is terminal and silent — from a closed session
every event leaves it closed and makes no call — and consequently over
any event sequence from a freshly started session, close is invoked at
most once in the whole lifetime. -/
theorem closed_terminal_and_close_at_most_once (maxSize : Nat) :
    (∀ (s : RelaySession) (e : Event), s.state = SessionState.closed →
        (step maxSize s e).1.state = SessionState.closed ∧
        (step maxSize s e).2 = []) ∧
    (∀ (b : Bool) (es : List Event),
        closeCount (runEvents maxSize (RelaySession.start b).1 es).2 ≤ 1) :=
  ⟨fun s e h => step_closed maxSize s e h,
   fun _ es => runEvents_close_le_one maxSize es _⟩

/-- C9 witness: over a concrete lifetime with three client messages
(the second of which closes the channel with the extra-messages error)
the trace contains at most one close call. -/
theorem closed_terminal_and_close_at_most_once_witness :
    closeCount (runEvents 3 (RelaySession.start true).1
      [Event.message "ab", Event.message "c", Event.message "d"]).2 ≤ 1 :=
  (closed_terminal_and_close_at_most_once 3).2 true
    [Event.message "ab", Event.message "c", Event.message "d"]

/-- C10: starting a session by itself produces no client-visible call,
whether or not a backend link exists; for a link-less session the
not-found close happens only during the handling of the first onMessage. -/
theorem start_makes_no_calls (maxSize : Nat) (b : Bool) (p : String)
    (_hp : p.length ≤ maxSize) :
    (RelaySession.start b).2 = [] ∧
    ((RelaySession.start false).1.onMessage maxSize p).2 =
      [Call.close kNotFoundError] := by
  refine ⟨rfl, ?_⟩
  simp [RelaySession.start, RelaySession.onMessage, RelaySession.closeChannel]

/-- C10 witness: starting with a backend link emits nothing, and the
link-less session's first onMessage of "a" under ceiling 3 emits exactly
the not-found close. -/
theorem start_makes_no_calls_witness :
    (RelaySession.start true).2 = [] ∧
    ((RelaySession.start false).1.onMessage 3 "a").2 =
      [Call.close kNotFoundError] :=
  start_makes_no_calls 3 true "a" (by decide)
